import Mathlib

/-!
Verification of the task-ingestion/consumption pipeline.

Shallow embedding of the two handlers:
  src/src/api/handler.py          (validate_task, sanitize_task, send_to_queue,
                                   create_response, lambda_handler)
  src/src/queue_processor/handler.py (process_task, lambda_handler)

Python dictionary values are modelled by `Val` (strings, integers, None);
dictionaries whose key set is open-ended are modelled by association lists,
the fixed-shape task-input dictionary by a structure of optional fields.
Standard-library effects are made explicit: `json.loads` outcomes, the
`uuid4`/`datetime.now` values and the SQS send outcome are parameters, and
`datetime.fromisoformat` is an abstract boolean predicate.
-/

namespace TaskPipeline

/-- A Python value as it can occur in the task dictionaries: a string,
an integer, or None. -/
inductive Val where
  | str (s : String)
  | num (n : Int)
  | null
  deriving DecidableEq, Repr

/-- Python truthiness of a `Val` (`if task_data["due_date"]:`). -/
def truthy : Val → Bool
  | Val.str s => s ≠ ""
  | Val.num n => n ≠ 0
  | Val.null => false

/-- The characters Python's `str.strip()` removes (ASCII whitespace). -/
def pyIsSpace (c : Char) : Bool :=
  c = ' ' ∨ c = '\t' ∨ c = '\n' ∨ c = '\r' ∨ c = '\x0b' ∨ c = '\x0c'

/-- Python `s.strip()`: drop whitespace from both ends. -/
def pyStrip (s : String) : String :=
  ⟨((s.data.dropWhile pyIsSpace).reverse.dropWhile pyIsSpace).reverse⟩

/-- Python `s.lower()` (on the ASCII range the handlers use). -/
def pyLower (s : String) : String :=
  ⟨s.data.map Char.toLower⟩

/-! ## Queue processor: src/src/queue_processor/handler.py -/

/-- An open-keyed Python dictionary of `Val`s (the decoded message body). -/
abbrev PyDict := List (String × Val)

/-- `key in d` on a Python dictionary. -/
def pyHasKey (d : PyDict) (k : String) : Bool :=
  d.any (fun kv => kv.1 == k)

/-- `d.get(key)` on a Python dictionary: the value, or None when absent. -/
def pyGet (d : PyDict) (k : String) : Val :=
  ((d.find? (fun kv => kv.1 == k)).map Prod.snd).getD Val.null

/-- The `required_fields` list of `process_task`. -/
def required_fields : List String :=
  ["task_id", "title", "description", "priority", "created_at"]

/-- The dictionary returned by `process_task` on success. -/
structure ProcessingResult where
  task_id : Val
  status : String
  message : String
  deriving DecidableEq, Repr

/-- `process_task` from src/src/queue_processor/handler.py: checks the five
required fields in order and raises `ProcessingError` (modelled as
`Except.error` carrying the message) on the first missing one; otherwise
returns the fixed completion result. -/
def process_task (task_data : PyDict) : Except String ProcessingResult :=
  match required_fields.find? (fun f => ¬ pyHasKey task_data f) with
  | some f => Except.error ("Missing required field: " ++ f)
  | none =>
      Except.ok
        { task_id := pyGet task_data "task_id"
          status := "completed"
          message := "Task processed successfully" }

/-- Body of one SQS record: either a string body together with its
`json.loads` outcome (`none` = `JSONDecodeError`), or an already-decoded
dictionary. -/
inductive RecBody where
  | strB (parsed : Option PyDict)
  | dictB (d : PyDict)
  deriving DecidableEq, Repr

/-- One record of the SQS event. `messageId` is `record.get("messageId")`
(None when absent); `body` is `none` when the record has no `body` key. -/
structure SqsRecord where
  messageId : Val
  body : Option RecBody
  deriving DecidableEq, Repr

/-- The task dictionary obtained from a record's body: an absent body
defaults to the empty dictionary (the string two-character default decodes
to it), a string body yields its `json.loads` outcome, a dictionary body is
used as is. `none` is a `JSONDecodeError`. -/
def recordTaskData : Option RecBody → Option PyDict
  | none => some []
  | some (RecBody.strB parsed) => parsed
  | some (RecBody.dictB d) => some d

/-- The fault an item attempt can raise inside the consumer loop. -/
inductive ItemFault where
  | jsonDecode
  | processing (msg : String)
  deriving DecidableEq, Repr

/-- The body of the consumer loop for one record: decode, then process.
Each escape route of the source's try block appears as an `ItemFault`. -/
def attempt_item (r : SqsRecord) : Except ItemFault ProcessingResult :=
  match recordTaskData r.body with
  | none => Except.error ItemFault.jsonDecode
  | some td =>
      match process_task td with
      | Except.error m => Except.error (ItemFault.processing m)
      | Except.ok res => Except.ok res

/-- Whether the loop body for a record ends in one of the except branches. -/
def item_fails (r : SqsRecord) : Bool :=
  match attempt_item r with
  | Except.error _ => true
  | Except.ok _ => false

/-- One entry of `batchItemFailures`. -/
structure FailureEntry where
  itemIdentifier : Val
  deriving DecidableEq, Repr

/-- The value returned by the consumer's `lambda_handler`. -/
structure BatchResponse where
  batchItemFailures : List FailureEntry
  deriving DecidableEq, Repr

/-- The consumer loop over the records. First component: the accumulated
`batch_item_failures`; second component: the trace of message identifiers
attempted (the source logs one debug line per record at the top of the
loop — this trace makes "every item is attempted" observable). -/
def queue_process_records : List SqsRecord → List FailureEntry × List Val
  | [] => ([], [])
  | r :: rs =>
      let fails :=
        match attempt_item r with
        | Except.error _ => [{ itemIdentifier := r.messageId }]
        | Except.ok _ => []
      let rest := queue_process_records rs
      (fails ++ rest.1, r.messageId :: rest.2)

/-- `lambda_handler` from src/src/queue_processor/handler.py, with the
attempt trace carried alongside the returned response. -/
def queue_lambda_handler (records : List SqsRecord) : BatchResponse × List Val :=
  let res := queue_process_records records
  ({ batchItemFailures := res.1 }, res.2)

/-- The concrete five-field message used by the C5 witness. -/
def c5_dict : PyDict :=
  [("task_id", Val.str "t1"), ("title", Val.str "a"),
   ("description", Val.str "b"), ("priority", Val.str "low"),
   ("created_at", Val.str "2025-01-01T00:00:00Z")]

/-- The result `process_task` yields on `c5_dict`. -/
def c5_result : ProcessingResult :=
  { task_id := Val.str "t1", status := "completed",
    message := "Task processed successfully" }

/-! ## API handler: src/src/api/handler.py -/

/-- The task-input dictionary of the API: each of the four fields the code
reads is present (`some`) or absent (`none`); other keys are never read. -/
structure TaskData where
  title : Option Val
  description : Option Val
  priority : Option Val
  due_date : Option Val
  deriving DecidableEq, Repr

/-- `task_data.get(key, "")`: the stored value, or the empty string. -/
def dGetStr (o : Option Val) : Val := o.getD (Val.str "")

/-- `task_data.get(key)`: the stored value, or None. -/
def dGetNull (o : Option Val) : Val := o.getD Val.null

/-- `validate_task` from src/src/api/handler.py, transcribed check for
check in source order. `fromisoformatOk` abstracts the standard library's
`datetime.fromisoformat` as the set of strings it accepts; the source
passes it the due date with "Z" replaced by "+00:00". Returns the pair
(is_valid, error_message). -/
def validate_task (fromisoformatOk : String → Bool) (task_data : TaskData) :
    Bool × Option String :=
  if task_data.title = none then
    (false, some "Missing required field: title")
  else if task_data.description = none then
    (false, some "Missing required field: description")
  else if task_data.priority = none then
    (false, some "Missing required field: priority")
  else
    match dGetStr task_data.title with
    | Val.str title =>
      if pyStrip title = "" then (false, some "title cannot be empty")
      else if title.length > 200 then
        (false, some "title cannot exceed 200 characters")
      else
        match dGetStr task_data.description with
        | Val.str description =>
          if pyStrip description = "" then
            (false, some "description cannot be empty")
          else if description.length > 2000 then
            (false, some "description cannot exceed 2000 characters")
          else
            if dGetStr task_data.priority
                ∉ [Val.str "low", Val.str "medium", Val.str "high"] then
              (false, some "priority must be one of: low, medium, high")
            else
              match dGetNull task_data.due_date with
              | Val.null => (true, none)
              | Val.str due_date =>
                  if fromisoformatOk (due_date.replace "Z" "+00:00") then
                    (true, none)
                  else (false, some "due_date must be in ISO 8601 format")
              | _ =>
                  (false, some "due_date must be a string in ISO 8601 format")
        | _ => (false, some "description must be a string")
    | _ => (false, some "title must be a string")

/-- The normalized task produced by `sanitize_task`; `due_date = none`
means the key is absent from the output dictionary. -/
structure NormalizedTask where
  title : String
  description : String
  priority : String
  due_date : Option String
  deriving DecidableEq, Repr

/-- `sanitize_task` from src/src/api/handler.py. `none` models the
exception Python raises when a required field is absent (`KeyError`) or a
trimmed value is not a string (`AttributeError`); the due-date key is kept
only when present and truthy. -/
def sanitize_task (task_data : TaskData) : Option NormalizedTask :=
  match task_data.title, task_data.description, task_data.priority with
  | some (Val.str t), some (Val.str d), some (Val.str p) =>
      match task_data.due_date with
      | some v =>
          if truthy v then
            match v with
            | Val.str dd =>
                some { title := pyStrip t, description := pyStrip d,
                       priority := pyLower (pyStrip p), due_date := some (pyStrip dd) }
            | _ => none
          else
            some { title := pyStrip t, description := pyStrip d,
                   priority := pyLower (pyStrip p), due_date := none }
      | none =>
          some { title := pyStrip t, description := pyStrip d,
                 priority := pyLower (pyStrip p), due_date := none }
  | _, _, _ => none

/-- The message body `send_to_queue` builds: generated task identifier,
creation timestamp, then the sanitized task's fields. -/
structure MessageBody where
  task_id : String
  created_at : String
  task : NormalizedTask
  deriving DecidableEq, Repr

/-- The arguments of the `sqs.send_message` call. -/
structure SqsSendCall where
  queueUrl : String
  messageBody : MessageBody
  messageGroupId : String
  messageDeduplicationId : String
  deriving DecidableEq, Repr

/-- `send_to_queue` from src/src/api/handler.py, with the two
non-deterministic inputs (`uuid.uuid4()` and the formatted
`datetime.now(timezone.utc)`) passed in explicitly. Returns the send call
it issues and the task identifier it returns to the caller. -/
def send_to_queue (task_id created_at queue_url : String)
    (task_data : NormalizedTask) : SqsSendCall × String :=
  ({ queueUrl := queue_url
     messageBody :=
       { task_id := task_id, created_at := created_at, task := task_data }
     messageGroupId := "task-processing"
     messageDeduplicationId := task_id },
   task_id)

/-- A response body, structured as the handler builds it before
`json.dumps`. -/
inductive RespBody where
  | errObj (error : Option String)
  | errDetails (error details : String)
  | success (task_id message status : String)
  deriving DecidableEq, Repr

/-- The `default_headers` dictionary of `create_response`. -/
def default_headers : List (String × String) :=
  [("Content-Type", "application/json"),
   ("Access-Control-Allow-Origin", "*"),
   ("Access-Control-Allow-Headers", "Content-Type"),
   ("Access-Control-Allow-Methods", "POST,OPTIONS")]

/-- Python `dict.update`: existing keys keep their position and take the
new value, new keys are appended in update order. -/
def dictUpdate (base upd : List (String × String)) :
    List (String × String) :=
  base.map (fun kv =>
    match upd.find? (fun kv2 => kv2.1 == kv.1) with
    | some kv2 => (kv.1, kv2.2)
    | none => kv)
  ++ upd.filter (fun kv2 => ¬ base.any (fun kv => kv.1 == kv2.1))

/-- An API Gateway response as `create_response` builds it. -/
structure ApiResponse where
  statusCode : Nat
  headers : List (String × String)
  body : RespBody
  deriving DecidableEq, Repr

/-- `create_response` from src/src/api/handler.py (its optional extra
headers passed as a list, empty at every call site of the source). -/
def create_response (status_code : Nat) (body : RespBody)
    (headers : List (String × String)) : ApiResponse :=
  { statusCode := status_code
    headers := dictUpdate default_headers headers
    body := body }

/-- The request body of the API event: either a string body together with
its `json.loads` outcome (`none` = `JSONDecodeError`) or an
already-decoded dictionary. -/
inductive ApiEventBody where
  | strBody (parsed : Option TaskData)
  | dictBody (td : TaskData)
  deriving Repr

/-- Outcome of the `sqs.send_message` call: success, `ClientError`, or any
other exception raised while sending. -/
inductive SendOutcome where
  | ok
  | clientError (msg : String)
  | otherError (msg : String)
  deriving DecidableEq, Repr

/-- The task dictionary the handler obtains from the event body, when the
body parses. -/
def eventTaskData : ApiEventBody → Option TaskData
  | ApiEventBody.strBody parsed => parsed
  | ApiEventBody.dictBody td => some td

/-- The body of the API `lambda_handler` after JSON parsing succeeded:
validate, sanitize, send, and translate the outcome, with the list of
issued send calls returned alongside the response. An impossible sanitize
failure (the source would raise there, caught by the generic handler)
maps to the 500 branch with no send call. -/
def api_handle_task (fromisoformatOk : String → Bool)
    (task_id created_at queue_url : String) (send : SendOutcome)
    (task_data : TaskData) : ApiResponse × List SqsSendCall :=
  match validate_task fromisoformatOk task_data with
  | (false, error_message) =>
      (create_response 400 (RespBody.errObj error_message) [], [])
  | (true, _) =>
      match sanitize_task task_data with
      | none =>
          (create_response 500
            (RespBody.errDetails "Internal server error" "AttributeError") [],
           [])
      | some sanitized =>
          let call := (send_to_queue task_id created_at queue_url sanitized).1
          match send with
          | SendOutcome.ok =>
              (create_response 200
                (RespBody.success task_id "Task created successfully" "queued")
                [],
               [call])
          | SendOutcome.clientError m =>
              (create_response 500
                (RespBody.errDetails "Failed to process task" m) [],
               [call])
          | SendOutcome.otherError m =>
              (create_response 500
                (RespBody.errDetails "Internal server error" m) [],
               [call])

/-- `lambda_handler` from src/src/api/handler.py: parse the body (a parse
failure returns 400 before validation), then hand off to the task path.
The second component is the list of send calls issued during the
invocation. -/
def api_lambda_handler (fromisoformatOk : String → Bool)
    (task_id created_at queue_url : String) (send : SendOutcome)
    (event : ApiEventBody) : ApiResponse × List SqsSendCall :=
  match event with
  | ApiEventBody.strBody none =>
      (create_response 400
        (RespBody.errObj (some "Invalid JSON in request body")) [], [])
  | ApiEventBody.strBody (some task_data) =>
      api_handle_task fromisoformatOk task_id created_at queue_url send
        task_data
  | ApiEventBody.dictBody task_data =>
      api_handle_task fromisoformatOk task_id created_at queue_url send
        task_data

/-! ## Spec-side formulation of the validator, for the order claim (C6) -/

/-- Spec check 1: title presence. -/
def check_title_presence (td : TaskData) : Option String :=
  if td.title = none then some "Missing required field: title" else none

/-- Spec check 2: description presence. -/
def check_description_presence (td : TaskData) : Option String :=
  if td.description = none then some "Missing required field: description"
  else none

/-- Spec check 3: priority presence. -/
def check_priority_presence (td : TaskData) : Option String :=
  if td.priority = none then some "Missing required field: priority" else none

/-- Spec check 4: title type, emptiness and length. -/
def check_title_value (td : TaskData) : Option String :=
  match dGetStr td.title with
  | Val.str title =>
      if pyStrip title = "" then some "title cannot be empty"
      else if title.length > 200 then
        some "title cannot exceed 200 characters"
      else none
  | _ => some "title must be a string"

/-- Spec check 5: description type, emptiness and length. -/
def check_description_value (td : TaskData) : Option String :=
  match dGetStr td.description with
  | Val.str description =>
      if pyStrip description = "" then some "description cannot be empty"
      else if description.length > 2000 then
        some "description cannot exceed 2000 characters"
      else none
  | _ => some "description must be a string"

/-- Spec check 6: priority enum. -/
def check_priority_enum (td : TaskData) : Option String :=
  if dGetStr td.priority ∉ [Val.str "low", Val.str "medium", Val.str "high"]
  then some "priority must be one of: low, medium, high"
  else none

/-- Spec check 7: due-date format. -/
def check_due_date (fromisoformatOk : String → Bool) (td : TaskData) :
    Option String :=
  match dGetNull td.due_date with
  | Val.null => none
  | Val.str due_date =>
      if fromisoformatOk (due_date.replace "Z" "+00:00") then none
      else some "due_date must be in ISO 8601 format"
  | _ => some "due_date must be a string in ISO 8601 format"

/-- The seven checks in the order the spec fixes. -/
def validation_checks (fromisoformatOk : String → Bool) (td : TaskData) :
    List (Option String) :=
  [check_title_presence td, check_description_presence td,
   check_priority_presence td, check_title_value td,
   check_description_value td, check_priority_enum td,
   check_due_date fromisoformatOk td]

/-- The first failing check's error, if any. -/
def first_failure (checks : List (Option String)) : Option String :=
  (checks.filterMap id).head?

/-! ## Concrete inputs used by counterexamples and witnesses -/

/-- A title of trimmed length 1 but raw length 201. -/
def c2_title : String := ⟨'A' :: List.replicate 200 ' '⟩

/-- The C2 counterexample input: its trimmed title is one character. -/
def c2_input : TaskData :=
  { title := some (Val.str c2_title), description := some (Val.str "d"),
    priority := some (Val.str "low"), due_date := none }

/-- A title of raw length 201 with no whitespace. -/
def c2w_title : String := ⟨List.replicate 201 'A'⟩

/-- The amended-C2 witness input, the spec's own length test vector. -/
def c2w_input : TaskData :=
  { title := some (Val.str c2w_title), description := some (Val.str "d"),
    priority := some (Val.str "low"), due_date := none }

/-- A valid concrete task input, shared by the C3 and C9 witnesses. -/
def valid_input : TaskData :=
  { title := some (Val.str "Test Task"),
    description := some (Val.str "Test description"),
    priority := some (Val.str "low"), due_date := none }

/-! ### Helper lemmas for the consumer -/

theorem queue_failures_eq (records : List SqsRecord) :
    (queue_process_records records).1
      = (records.filter (fun r => item_fails r)).map
          (fun r => { itemIdentifier := r.messageId }) := by
  induction records with
  | nil => rfl
  | cons r rs ih =>
      simp only [queue_process_records, List.filter_cons]
      cases h : attempt_item r with
      | error e =>
          have hf : item_fails r = true := by simp [item_fails, h]
          simp [hf, ih]
      | ok v =>
          have hf : item_fails r = false := by simp [item_fails, h]
          simp [hf, ih]

theorem queue_attempts_eq (records : List SqsRecord) :
    (queue_process_records records).2 = records.map (fun r => r.messageId) := by
  induction records with
  | nil => rfl
  | cons r rs ih => simp [queue_process_records, ih]

/-! ### Claim theorems for the consumer -/

/-- C1: `processBatch` attempts every item in the order received (the
attempt trace equals the message-identifier sequence of the batch,
regardless of failures, so a failure on item i never prevents later items
from being attempted), the failed-identifier sequence is exactly the
message identifiers of the items whose decode or processing faulted, in
encounter order (so an identifier appears iff that item faulted, and
successes are never recorded), and the empty batch yields the empty
failed-identifier sequence. -/
theorem processBatch_failures_iff_fault_in_order (records : List SqsRecord) :
    (queue_lambda_handler records).1.batchItemFailures
        = (records.filter (fun r => item_fails r)).map
            (fun r => { itemIdentifier := r.messageId }) ∧
    (queue_lambda_handler records).2 = records.map (fun r => r.messageId) ∧
    (queue_lambda_handler []).1.batchItemFailures = [] := by
  refine ⟨?_, ?_, rfl⟩
  · simpa [queue_lambda_handler] using queue_failures_eq records
  · simpa [queue_lambda_handler] using queue_attempts_eq records

/-- C4: `process` fails with `ProcessingError` exactly when one of the five
required fields is missing from the decoded structure, and succeeds with a
processing result exactly when all five are present. -/
theorem process_task_raises_iff_missing_field (task_data : PyDict) :
    ((∃ f ∈ required_fields, pyHasKey task_data f = false)
        ↔ ∃ e, process_task task_data = Except.error e) ∧
    ((∀ f ∈ required_fields, pyHasKey task_data f = true)
        ↔ ∃ r, process_task task_data = Except.ok r) := by
  constructor
  · constructor
    · rintro ⟨f, hf, hmiss⟩
      unfold process_task
      cases hfind : required_fields.find? (fun f => ¬ pyHasKey task_data f) with
      | none =>
          rw [List.find?_eq_none] at hfind
          exact absurd (by simp [hmiss]) (hfind f hf)
      | some g => exact ⟨_, rfl⟩
    · rintro ⟨e, he⟩
      unfold process_task at he
      cases hfind : required_fields.find? (fun f => ¬ pyHasKey task_data f) with
      | none => rw [hfind] at he; exact absurd he (by simp)
      | some g =>
          have hg := List.find?_some hfind
          have hmem := List.mem_of_find?_eq_some hfind
          exact ⟨g, hmem, by simpa using hg⟩
  · constructor
    · intro hall
      unfold process_task
      cases hfind : required_fields.find? (fun f => ¬ pyHasKey task_data f) with
      | none => exact ⟨_, rfl⟩
      | some g =>
          have hg := List.find?_some hfind
          have hmem := List.mem_of_find?_eq_some hfind
          exact absurd (hall g hmem) (by simpa using hg)
    · rintro ⟨r, hr⟩ f hf
      unfold process_task at hr
      cases hfind : required_fields.find? (fun f => ¬ pyHasKey task_data f) with
      | none =>
          rw [List.find?_eq_none] at hfind
          simpa using hfind f hf
      | some g => rw [hfind] at hr; exact absurd hr (by simp)

/-- C5: `process` is deterministic and idempotent: two successful runs on
the same decoded structure yield field-for-field identical results, and the
result is a function of the input alone — its `task_id` is the input's
`task_id` value and its `status` and `message` are fixed strings, with no
non-deterministic field (the embedding carries no state because the source
reads nothing but its argument). -/
theorem process_task_idempotent (task_data : PyDict) (r₁ r₂ : ProcessingResult)
    (h₁ : process_task task_data = Except.ok r₁)
    (h₂ : process_task task_data = Except.ok r₂) :
    r₁ = r₂ ∧ r₁.task_id = pyGet task_data "task_id"
      ∧ r₁.status = "completed" ∧ r₁.message = "Task processed successfully" := by
  rw [h₁] at h₂
  cases h₂
  unfold process_task at h₁
  cases hfind : required_fields.find? (fun f => ¬ pyHasKey task_data f) with
  | none =>
      rw [hfind] at h₁
      cases h₁
      exact ⟨rfl, rfl, rfl, rfl⟩
  | some g => rw [hfind] at h₁; exact absurd h₁ (by simp)

/-- Witness for C5 at a concrete five-field message. -/
theorem process_task_idempotent_witness :
    c5_result = c5_result ∧ c5_result.task_id = pyGet c5_dict "task_id"
      ∧ c5_result.status = "completed"
      ∧ c5_result.message = "Task processed successfully" :=
  process_task_idempotent c5_dict c5_result c5_result rfl rfl

/-- C10: the consumer handler is total on well-formed record batches — every
per-item fault (decode failure or processing failure) is converted into a
failed-identifier entry of the returned batch result instead of escaping
the loop. -/
theorem processBatch_total_fault_converted (records : List SqsRecord)
    (r : SqsRecord) (hr : r ∈ records) (hf : item_fails r = true) :
    FailureEntry.mk r.messageId
      ∈ (queue_lambda_handler records).1.batchItemFailures := by
  have h := queue_failures_eq records
  simp only [queue_lambda_handler]
  rw [h, List.mem_map]
  exact ⟨r, List.mem_filter.mpr ⟨hr, by simpa using hf⟩, rfl⟩

/-- Witness for C10: a one-record batch whose body is malformed JSON has
its identifier in the returned failures. -/
theorem processBatch_total_fault_converted_witness :
    FailureEntry.mk (Val.str "m1")
      ∈ (queue_lambda_handler
          [{ messageId := Val.str "m1", body := some (RecBody.strB none) }]
        ).1.batchItemFailures := by
  exact processBatch_total_fault_converted
    [{ messageId := Val.str "m1", body := some (RecBody.strB none) }]
    { messageId := Val.str "m1", body := some (RecBody.strB none) }
    (by simp) (by decide)

/-! ### Helper lemmas for the API handler -/

theorem create_response_headers (status_code : Nat) (body : RespBody) :
    (create_response status_code body []).headers = default_headers := by
  simp [create_response, dictUpdate]

theorem validate_true_sanitize_some (iso : String → Bool) (td : TaskData)
    (h : (validate_task iso td).1 = true) :
    ∃ st, sanitize_task td = some st := by
  obtain ⟨t, d, p, dd⟩ := td
  cases t with
  | none => simp [validate_task] at h
  | some tv =>
  cases d with
  | none => simp [validate_task] at h
  | some dv =>
  cases p with
  | none => simp [validate_task] at h
  | some pv =>
  cases tv with
  | num n => simp [validate_task, dGetStr] at h
  | null => simp [validate_task, dGetStr] at h
  | str ts =>
  cases dv with
  | num n => simp [validate_task, dGetStr] at h; split_ifs at h
  | null => simp [validate_task, dGetStr] at h; split_ifs at h
  | str ds =>
  cases pv with
  | num n => simp [validate_task, dGetStr] at h; split_ifs at h
  | null => simp [validate_task, dGetStr] at h; split_ifs at h
  | str ps =>
  cases dd with
  | none => exact ⟨_, rfl⟩
  | some ddv =>
  cases ddv with
  | num n =>
      simp [validate_task, dGetStr, dGetNull] at h
      split_ifs at h
  | null => exact ⟨_, rfl⟩
  | str dds =>
      simp only [sanitize_task, truthy]
      split_ifs <;> exact ⟨_, rfl⟩

/-! ### Claim theorems for the validator and sanitizer -/

set_option maxRecDepth 8000 in
/-- C2 counterexample: a title whose trimmed length is 1 (well under 200)
is still rejected with the length error, because the source compares the
raw, untrimmed length — refuting "an input whose trimmed title is at most
200 characters does not fail with LengthExceeded, regardless of
surrounding whitespace". -/
theorem validate_trimmed_length_counterexample :
    (pyStrip c2_title).length ≤ 200 ∧
    validate_task (fun _ => true) c2_input
      = (false, some "title cannot exceed 200 characters") := by
  constructor
  · decide
  · rfl

/-- C2 amended: for inputs that reach the length checks (string title and
description present, priority present, neither trimmed value empty),
`validate` fails with the title-length error exactly when the RAW title
length exceeds 200, and with the description-length error exactly when the
raw title is within bounds and the RAW description length exceeds 2000 —
the lengths are measured before trimming. -/
theorem validate_length_checks_raw (iso : String → Bool) (td : TaskData)
    (t d : String) (ht : td.title = some (Val.str t))
    (hd : td.description = some (Val.str d)) (hp : td.priority ≠ none)
    (ht2 : pyStrip t ≠ "") (hd2 : pyStrip d ≠ "") :
    ((validate_task iso td).2 = some "title cannot exceed 200 characters"
        ↔ 200 < t.length) ∧
    ((validate_task iso td).2 = some "description cannot exceed 2000 characters"
        ↔ t.length ≤ 200 ∧ 2000 < d.length) := by
  obtain ⟨tt, dd0, p, due⟩ := td
  simp only at ht hd hp
  subst ht; subst hd
  rcases p with _ | pv
  · exact absurd rfl hp
  rcases due with _ | (dds | ddn | _) <;>
    simp only [validate_task, dGetStr, dGetNull, Option.getD_some,
      Option.getD_none] <;>
    split_ifs <;> simp_all

set_option maxRecDepth 8000 in
/-- Witness for the amended C2 at the spec's own length test vector: a
title of 201 characters (no whitespace) is rejected with the 200 message. -/
theorem validate_length_checks_raw_witness :
    ((validate_task (fun _ => true) c2w_input).2
        = some "title cannot exceed 200 characters"
        ↔ 200 < c2w_title.length) ∧
    ((validate_task (fun _ => true) c2w_input).2
        = some "description cannot exceed 2000 characters"
        ↔ c2w_title.length ≤ 200 ∧ 2000 < ("d" : String).length) :=
  validate_length_checks_raw (fun _ => true) c2w_input c2w_title "d"
    rfl rfl (by decide) (by decide) (by decide)

set_option maxHeartbeats 1000000 in
/-- C6: the validator performs its checks in the fixed order
title presence → description presence → priority presence → title
type/empty/length → description type/empty/length → priority enum →
due-date format, and returns the error of the first failing check: its
result is valid exactly when no check of the spec-side ordered list fails,
and its message is the first failing check's error, so no later check
influences the result. -/
theorem validate_fixed_order_first_failure (iso : String → Bool)
    (td : TaskData) :
    validate_task iso td
      = ((first_failure (validation_checks iso td)).isNone,
         first_failure (validation_checks iso td)) := by
  obtain ⟨t, d, p, dd⟩ := td
  rcases t with _ | (ts | tn | _) <;>
  rcases d with _ | (ds | dn | _) <;>
  rcases p with _ | pv <;>
  rcases dd with _ | (dds | ddn | _) <;>
  first
    | rfl
    | (simp only [validate_task, validation_checks, first_failure,
         check_title_presence, check_description_presence,
         check_priority_presence, check_title_value, check_description_value,
         check_priority_enum, check_due_date, dGetStr, dGetNull,
         Option.getD_some, Option.getD_none]
       split_ifs <;> rfl)

/-- C7: on a task whose title, description and priority are strings (and
whose due date, when present, is a string), `sanitize` trims title and
description, trims and lower-cases priority, keeps a trimmed due date
exactly when one is present and non-empty and omits the field otherwise;
and on the spec's example it yields exactly the normalized triple. -/
theorem sanitize_trims_and_lowercases (t d p : String) (dd : Option String) :
    sanitize_task
        { title := some (Val.str t), description := some (Val.str d),
          priority := some (Val.str p), due_date := dd.map Val.str }
      = some
        { title := pyStrip t, description := pyStrip d,
          priority := pyLower (pyStrip p),
          due_date :=
            match dd with
            | some s => if s = "" then none else some (pyStrip s)
            | none => none } ∧
    sanitize_task
        { title := some (Val.str "  A  "), description := some (Val.str "  B  "),
          priority := some (Val.str "HIGH"), due_date := none }
      = some
        { title := "A", description := "B", priority := "high",
          due_date := none } := by
  constructor
  · cases dd with
    | none => rfl
    | some s =>
        by_cases hs : s = "" <;>
          simp [sanitize_task, truthy, hs, Option.map_some]
  · decide

/-- C8: every successful enqueue submits an envelope made of the generated
task identifier, the creation timestamp and the normalized task fields,
with the single fixed ordering-group identifier "task-processing" — the
same for any two calls whatever their inputs — and a deduplication
identifier equal to the envelope's own task identifier, which is also the
value returned to the caller. -/
theorem send_envelope_fixed_group_dedup_is_task_id
    (task_id created_at queue_url : String) (task_data : NormalizedTask)
    (tid2 now2 url2 : String) (td2 : NormalizedTask) :
    (send_to_queue task_id created_at queue_url task_data).1.messageBody.task_id
        = task_id ∧
    (send_to_queue task_id created_at queue_url task_data).1.messageBody.created_at
        = created_at ∧
    (send_to_queue task_id created_at queue_url task_data).1.messageBody.task
        = task_data ∧
    (send_to_queue task_id created_at queue_url task_data).1.messageGroupId
        = "task-processing" ∧
    (send_to_queue task_id created_at queue_url task_data).1.messageGroupId
        = (send_to_queue tid2 now2 url2 td2).1.messageGroupId ∧
    (send_to_queue task_id created_at queue_url task_data).1.messageDeduplicationId
        = (send_to_queue task_id created_at queue_url task_data).1.messageBody.task_id ∧
    (send_to_queue task_id created_at queue_url task_data).2 = task_id :=
  ⟨rfl, rfl, rfl, rfl, rfl, rfl, rfl⟩

/-! ### Helper lemmas for the ingestion gateway -/

theorem api_lambda_handler_parsed (iso : String → Bool)
    (task_id created_at queue_url : String) (send : SendOutcome)
    (event : ApiEventBody) (td : TaskData)
    (h : eventTaskData event = some td) :
    api_lambda_handler iso task_id created_at queue_url send event
      = api_handle_task iso task_id created_at queue_url send td := by
  cases event with
  | strBody parsed =>
      cases parsed with
      | none => simp [eventTaskData] at h
      | some td2 =>
          simp only [eventTaskData, Option.some.injEq] at h
          subst h; rfl
  | dictBody td2 =>
      simp only [eventTaskData, Option.some.injEq] at h
      subst h; rfl

theorem api_handle_task_headers (iso : String → Bool)
    (task_id created_at queue_url : String) (send : SendOutcome)
    (td : TaskData) :
    (api_handle_task iso task_id created_at queue_url send td).1.headers
      = default_headers := by
  unfold api_handle_task
  cases validate_task iso td with
  | mk b msg =>
      cases b with
      | false => exact create_response_headers _ _
      | true =>
          cases sanitize_task td with
          | none => exact create_response_headers _ _
          | some st => cases send <;> exact create_response_headers _ _

/-! ### Claim theorems for the ingestion gateway -/

/-- C3: with the JSON parse outcome of the event body fixed, a parsed raw
input that fails validation is answered with the 400 rejection carrying
the validator's own message and no send call is issued; a parsed raw input
that passes validation leads to exactly one send call, whatever the send
outcome. -/
theorem ingest_enqueue_iff_valid (iso : String → Bool)
    (task_id created_at queue_url : String) (send : SendOutcome)
    (event : ApiEventBody) (td : TaskData)
    (h : eventTaskData event = some td) :
    ((validate_task iso td).1 = false →
        (api_lambda_handler iso task_id created_at queue_url send event).1
            = create_response 400 (RespBody.errObj (validate_task iso td).2) []
          ∧ (api_lambda_handler iso task_id created_at queue_url send event).2
            = []) ∧
    ((validate_task iso td).1 = true →
        (api_lambda_handler iso task_id created_at queue_url send
            event).2.length = 1) := by
  rw [api_lambda_handler_parsed iso task_id created_at queue_url send event
        td h]
  unfold api_handle_task
  cases hv : validate_task iso td with
  | mk b msg =>
      cases b with
      | false => simp
      | true =>
          obtain ⟨st, hst⟩ := validate_true_sanitize_some iso td (by rw [hv])
          rw [hst]
          cases send <;> simp

/-- Witness for C3: a concrete valid input issues exactly one send call. -/
theorem ingest_enqueue_iff_valid_witness :
    ((validate_task (fun _ => true) valid_input).1 = false →
        (api_lambda_handler (fun _ => true) "tid" "now" "url" SendOutcome.ok
            (ApiEventBody.dictBody valid_input)).1
            = create_response 400
                (RespBody.errObj (validate_task (fun _ => true) valid_input).2)
                []
          ∧ (api_lambda_handler (fun _ => true) "tid" "now" "url"
              SendOutcome.ok (ApiEventBody.dictBody valid_input)).2 = []) ∧
    ((validate_task (fun _ => true) valid_input).1 = true →
        (api_lambda_handler (fun _ => true) "tid" "now" "url" SendOutcome.ok
            (ApiEventBody.dictBody valid_input)).2.length = 1) :=
  ingest_enqueue_iff_valid (fun _ => true) "tid" "now" "url" SendOutcome.ok
    (ApiEventBody.dictBody valid_input) valid_input rfl

/-- C9: every response of the ingestion handler carries exactly the fixed
header set (permissive cross-origin headers and the JSON content type),
and the outcome-to-status mapping is: validation failure → 400 with an
error body, ClientError or unexpected failure while sending → 500, and
success → 200 with the task_id / message / status "queued" body. -/
theorem response_status_mapping (iso : String → Bool)
    (task_id created_at queue_url : String) (send : SendOutcome)
    (event : ApiEventBody) (td : TaskData)
    (h : eventTaskData event = some td) :
    (∀ (send2 : SendOutcome) (ev2 : ApiEventBody),
        (api_lambda_handler iso task_id created_at queue_url send2
            ev2).1.headers = default_headers) ∧
    ("Content-Type", "application/json") ∈ default_headers ∧
    ("Access-Control-Allow-Origin", "*") ∈ default_headers ∧
    ("Access-Control-Allow-Headers", "Content-Type") ∈ default_headers ∧
    ("Access-Control-Allow-Methods", "POST,OPTIONS") ∈ default_headers ∧
    ((validate_task iso td).1 = false →
        (api_lambda_handler iso task_id created_at queue_url send
            event).1.statusCode = 400 ∧
        (api_lambda_handler iso task_id created_at queue_url send
            event).1.body = RespBody.errObj (validate_task iso td).2) ∧
    ((validate_task iso td).1 = true →
        (send = SendOutcome.ok →
            (api_lambda_handler iso task_id created_at queue_url send
                event).1.statusCode = 200 ∧
            (api_lambda_handler iso task_id created_at queue_url send
                event).1.body
              = RespBody.success task_id "Task created successfully"
                  "queued") ∧
        (∀ m, send = SendOutcome.clientError m →
            (api_lambda_handler iso task_id created_at queue_url send
                event).1.statusCode = 500) ∧
        (∀ m, send = SendOutcome.otherError m →
            (api_lambda_handler iso task_id created_at queue_url send
                event).1.statusCode = 500)) := by
  refine ⟨?_, by simp [default_headers], by simp [default_headers],
    by simp [default_headers], by simp [default_headers], ?_⟩
  · intro send2 ev2
    cases ev2 with
    | strBody parsed =>
        cases parsed with
        | none => exact create_response_headers _ _
        | some td2 =>
            exact api_handle_task_headers iso task_id created_at queue_url
              send2 td2
    | dictBody td2 =>
        exact api_handle_task_headers iso task_id created_at queue_url
          send2 td2
  · rw [api_lambda_handler_parsed iso task_id created_at queue_url send
        event td h]
    unfold api_handle_task
    cases hv : validate_task iso td with
    | mk b msg =>
        cases b with
        | false => simp [create_response]
        | true =>
            obtain ⟨st, hst⟩ :=
              validate_true_sanitize_some iso td (by rw [hv])
            rw [hst]
            cases send <;> simp [create_response]

/-- Witness for C9: the concrete valid input with a successful send yields
the 200 queued response with the fixed headers. -/
theorem response_status_mapping_witness :
    (∀ (send2 : SendOutcome) (ev2 : ApiEventBody),
        (api_lambda_handler (fun _ => true) "tid" "now" "url" send2
            ev2).1.headers = default_headers) ∧
    ("Content-Type", "application/json") ∈ default_headers ∧
    ("Access-Control-Allow-Origin", "*") ∈ default_headers ∧
    ("Access-Control-Allow-Headers", "Content-Type") ∈ default_headers ∧
    ("Access-Control-Allow-Methods", "POST,OPTIONS") ∈ default_headers ∧
    ((validate_task (fun _ => true) valid_input).1 = false →
        (api_lambda_handler (fun _ => true) "tid" "now" "url" SendOutcome.ok
            (ApiEventBody.dictBody valid_input)).1.statusCode = 400 ∧
        (api_lambda_handler (fun _ => true) "tid" "now" "url" SendOutcome.ok
            (ApiEventBody.dictBody valid_input)).1.body
          = RespBody.errObj (validate_task (fun _ => true) valid_input).2) ∧
    ((validate_task (fun _ => true) valid_input).1 = true →
        (SendOutcome.ok = SendOutcome.ok →
            (api_lambda_handler (fun _ => true) "tid" "now" "url"
                SendOutcome.ok
                (ApiEventBody.dictBody valid_input)).1.statusCode = 200 ∧
            (api_lambda_handler (fun _ => true) "tid" "now" "url"
                SendOutcome.ok (ApiEventBody.dictBody valid_input)).1.body
              = RespBody.success "tid" "Task created successfully"
                  "queued") ∧
        (∀ m, SendOutcome.ok = SendOutcome.clientError m →
            (api_lambda_handler (fun _ => true) "tid" "now" "url"
                SendOutcome.ok
                (ApiEventBody.dictBody valid_input)).1.statusCode = 500) ∧
        (∀ m, SendOutcome.ok = SendOutcome.otherError m →
            (api_lambda_handler (fun _ => true) "tid" "now" "url"
                SendOutcome.ok
                (ApiEventBody.dictBody valid_input)).1.statusCode = 500)) :=
  response_status_mapping (fun _ => true) "tid" "now" "url" SendOutcome.ok
    (ApiEventBody.dictBody valid_input) valid_input rfl

end TaskPipeline
